import Mathlib

set_option maxRecDepth 100000

/-!
Verification of the Disco Bus master protocol engine (node-discobus).

This file gives a shallow embedding of the protocol engine implemented in
src/discobus.js into Lean 4.  The engine state (class DiscoBusMaster) becomes
an explicit record, the serial port becomes an output byte log (wire), and the
event emitter together with the per-message RxJS observer become an event log.
Error strings of the source are represented one-for-one by the constructors of
BusError.  Asynchronous steps (port.drain callbacks, setTimeout) are modelled
synchronously: the drain callback body runs immediately and the timer is
modelled as a Boolean "armed" flag, which suffices for the functional claims
below.  A thrown JS exception is modelled as Except.error; every throw in the
source happens before any field of the object is mutated, so an error result
means the state is unchanged.

Machine integers: JS Buffer.from truncates every entry to a byte, and
Buffer.readUInt8 returns a byte, so the model reduces values modulo 256 at
exactly those points.
-/

namespace DiscoBus

/-- Broadcast destination address (BROADCAST_ADDRESS in the source). -/
def BROADCAST_ADDRESS : Nat := 0

/-- Maximum number of address corrections (MAX_ADDRESS_CORRECTIONS). -/
def MAX_ADDRESS_CORRECTIONS : Nat := 10

/-- Reserved command RESET (CMD.RESET). -/
def CMD_RESET : Nat := 0xFA

/-- Reserved command ADDRESS (CMD.ADDRESS). -/
def CMD_ADDRESS : Nat := 0xFB

/-- Reserved command NULL (CMD.NULL). -/
def CMD_NULL : Nat := 0xFF

/-- Message flag bit for batch messages (FLAGS.BATCH). -/
def FLAG_BATCH : Nat := 0x01

/-- Message flag bit for response messages (FLAGS.RESPONSE). -/
def FLAG_RESPONSE : Nat := 0x02

/-- One round of the CRC-16/MODBUS bit loop: shift right, xor with the
reflected polynomial 0xA001 when the bit shifted out was set. -/
def crcStep (c : Nat) : Nat :=
  if c % 2 = 1 then (c / 2) ^^^ 0xA001 else c / 2

/-- Iterate crcStep n times. -/
def crcRounds : Nat → Nat → Nat
  | 0, c => c
  | n + 1, c => crcRounds n (crcStep c)

/-- Feed one byte into the CRC-16/MODBUS register. -/
def crc16Update (c b : Nat) : Nat := crcRounds 8 (c ^^^ (b % 256))

/-- CRC-16/MODBUS of a byte list from a given seed; the source calls
crc.crc16modbus(data, 0xFFFF) from the npm crc package. -/
def crc16modbus (data : List Nat) (seed : Nat) : Nat :=
  data.foldl crc16Update seed

/-- Split a 16-bit number into high byte then low byte; mirrors
DiscoBusMaster._convert16bitTo8. -/
def convert16bitTo8 (value : Nat) : List Nat :=
  [(value / 256) % 256, value % 256]

/-- Error conditions signalled by the engine; each constructor corresponds
one-for-one to an error string in the source. -/
inductive BusError where
  /-- Previous message has not finished. -/
  | previousNotFinished
  /-- No output port has been defined. -/
  | noPort
  /-- Cannot give a message a destination and set batchMode to true. -/
  | batchWithDestination
  /-- There is no message to put data in (sendData while idle). -/
  | noMessageToSend
  /-- Cannot send more data than the defined length. -/
  | dataOverflow (definedLength : Nat)
  /-- There is no message to end (endMessage while idle). -/
  | noMessageToEnd
  /-- Cannot end the message until all responses have been received. -/
  | incompleteResponse
  /-- Invalid address received while addressing, with expected value. -/
  | invalidAddress (addr : Nat) (expected : Nat)
  /-- Maximum address corrections exceeded. -/
  | maxCorrections
deriving DecidableEq

/-- Observable events: the EventEmitter error channel (emitError) and the
per-message observer calls next (nextAddressing / nextResponseByte /
nextResponseBuf / nextError, after the type field of BusSubscriberNextVal),
error (obsError) and complete (obsComplete). -/
inductive Ev where
  | nextAddressing (value : Nat) (node : Nat)
  | nextResponseByte (value : Nat) (node : Nat)
  | nextResponseBuf (value : List Nat) (node : Nat)
  | nextError (err : BusError)
  | emitError (err : BusError)
  | obsError (err : BusError)
  | obsComplete
deriving DecidableEq

/-- Merged message options (this._msgOptions after Object.assign). -/
structure MsgOptions where
  destination : Nat
  batchMode : Bool
  responseMsg : Bool
  responseDefault : List Nat
deriving DecidableEq

/-- The response storage this.messageResponse: a flat byte list for
non-batch messages, a list of per-node byte lists for batch messages. -/
inductive RespBuf where
  | flat (bytes : List Nat)
  | nodes (bufs : List (List Nat))
deriving DecidableEq

/-- Flat view of a response buffer (empty for the batch variant). -/
def RespBuf.flatBytes : RespBuf → List Nat
  | .flat bs => bs
  | .nodes _ => []

/-- Per-node view of a response buffer (empty for the flat variant). -/
def RespBuf.nodeBufs : RespBuf → List (List Nat)
  | .nodes bs => bs
  | .flat _ => []

/-- The responseDefault value passed in the options object of startMessage:
either absent (the default [0] is merged in), present but not an array
(replaced by [] by the Array.isArray check), or an array of numbers. -/
inductive RespDefaultArg where
  | absent
  | notArray
  | arr (l : List Nat)
deriving DecidableEq

/-- The caller supplied options of startMessage before merging with
defaultOptions; none means the key was not supplied. -/
structure StartOptions where
  destination : Option Nat
  batchMode : Option Bool
  responseMsg : Option Bool
  responseDefault : RespDefaultArg
deriving DecidableEq

/-- StartOptions with no keys supplied. -/
def noOptions : StartOptions :=
  { destination := none, batchMode := none, responseMsg := none,
    responseDefault := RespDefaultArg.absent }

/-- The engine state: the fields of DiscoBusMaster, plus the byte log of
everything written to the port (wire), the log of emitted events, a flag for
an attached port, the daisy (RTS) line, and whether the response timer is
armed. -/
structure BusState where
  nodeNum : Nat
  messageResponse : RespBuf
  crcAcc : List Nat
  msgOptions : MsgOptions
  msgCommand : Nat
  msgDone : Bool
  dataLen : Nat
  fullDataLen : Nat
  sentLen : Nat
  responseCount : Nat
  addressCorrections : Nat
  addressing : Bool
  hasPort : Bool
  daisy : Bool
  timerArmed : Bool
  wire : List Nat
  events : List Ev
deriving DecidableEq

/-- Write bytes to the port and, when updateCRC is true, append them to the
CRC accumulator; mirrors DiscoBusMaster._sendBytes.  Buffer.from truncates
each value to a byte. -/
def sendBytesList (s : BusState) (values : List Nat) (updateCRC : Bool) : BusState :=
  let buff := values.map (fun v => v % 256)
  { s with wire := s.wire ++ buff,
           crcAcc := if updateCRC then s.crcAcc ++ buff else s.crcAcc }

/-- Mirrors _startResponseTimer (and _restartResponseTimer): clear the timer,
then arm it unless the message is done.  The port.drain callback is modelled
as running immediately. -/
def startResponseTimer (s : BusState) : BusState :=
  if s.msgDone then { s with timerArmed := false } else { s with timerArmed := true }

/-- The value held by options.responseDefault right after the defaults merge
and the Array.isArray check of startMessage. -/
def suppliedDefault : RespDefaultArg → List Nat
  | RespDefaultArg.absent => [0]
  | RespDefaultArg.notArray => []
  | RespDefaultArg.arr l => l

/-- Mirrors the responseDefault normalization in startMessage:
splice(dataLen) truncates to at most dataLen entries, then the
assignment to index dataLen - 1 followed by fill(0, start) extends a short
array with zero bytes up to dataLen. -/
def normalizeDefault (rd : List Nat) (len : Nat) : List Nat :=
  if (rd.take len).length < len then
    rd.take len ++ List.replicate (len - (rd.take len).length) 0
  else rd.take len

/-- Mirrors DiscoBusMaster.startMessage.  Except.error models a thrown
exception; every throw happens before any instance field is assigned, so an
error result leaves the state unchanged. -/
def startMessage (command length : Nat) (opts : StartOptions) (s : BusState) :
    Except BusError BusState :=
  if s.msgDone = false then Except.error BusError.previousNotFinished
  else if s.hasPort = false then Except.error BusError.noPort
  else
    let destination := opts.destination.getD BROADCAST_ADDRESS
    let batchMode0 := opts.batchMode.getD false
    let responseMsg := opts.responseMsg.getD false
    let batchMode :=
      if responseMsg && destination == BROADCAST_ADDRESS && batchMode0 == false
      then true else batchMode0
    if batchMode && destination != BROADCAST_ADDRESS then
      Except.error BusError.batchWithDestination
    else
      let respDefault0 := suppliedDefault opts.responseDefault
      let respDefault :=
        if responseMsg then normalizeDefault respDefault0 length else respDefault0
      let flags := (if batchMode then FLAG_BATCH else 0) |||
                   (if responseMsg then FLAG_RESPONSE else 0)
      let header := [flags, destination, command] ++
                    (if batchMode then [s.nodeNum] else [1]) ++ [length]
      let fullLen := if batchMode then length * s.nodeNum else length
      let s1 : BusState :=
        { s with
          msgDone := false,
          crcAcc := [],
          msgOptions :=
            { destination := destination, batchMode := batchMode,
              responseMsg := responseMsg, responseDefault := respDefault },
          msgCommand := command,
          dataLen := length,
          fullDataLen := fullLen,
          responseCount := 0,
          sentLen := 0,
          messageResponse := if batchMode then RespBuf.nodes [] else RespBuf.flat [] }
      let s2 := sendBytesList s1 [0xFF, 0xFF] false
      let s3 := sendBytesList s2 header true
      let s4 := if responseMsg && command != CMD_ADDRESS then startResponseTimer s3 else s3
      Except.ok s4

/-- Mirrors DiscoBusMaster.sendData for an array argument.  Note that the
source adds data.length to this._sentLen before checking the overflow
condition and does not roll the counter back on failure. -/
def sendData (data : List Nat) (s : BusState) : BusState :=
  if s.msgDone then { s with events := s.events ++ [Ev.emitError BusError.noMessageToSend] }
  else
    let s1 := { s with sentLen := s.sentLen + data.length }
    if s1.sentLen > s1.fullDataLen then
      { s1 with events := s1.events ++ [Ev.emitError (BusError.dataOverflow s1.fullDataLen)] }
    else
      sendBytesList s1 data true

/-- Mirrors DiscoBusMaster.endMessage.  The optional error argument carries
the error passed to endMessage (only the maximum address corrections string
in the source). -/
def endMessage (error : Option BusError) (s : BusState) : BusState :=
  if s.msgDone then { s with events := s.events ++ [Ev.emitError BusError.noMessageToEnd] }
  else
    let s1 :=
      if s.addressing then
        let sa := { s with addressing := false }
        let sb := if sa.nodeNum < 255 then sendBytesList sa [0xFF, 0xFF] true else sa
        let sc := { sb with crcAcc := [] }
        sendBytesList sc [0x00, 0x00, CMD_NULL, 0] true
      else s
    if s1.msgOptions.responseMsg && s1.responseCount < s1.fullDataLen then
      { s1 with events := s1.events ++ [Ev.emitError BusError.incompleteResponse] }
    else
      let s2 :=
        if !s1.msgOptions.responseMsg && s1.sentLen < s1.fullDataLen then
          sendData (List.replicate (s1.fullDataLen - s1.sentLen) 0) s1
        else s1
      let crcValue := crc16modbus s2.crcAcc 0xFFFF
      let s3 := sendBytesList s2 (convert16bitTo8 crcValue) false
      let s4 := { s3 with daisy := false, msgDone := true }
      match error with
      | some e => { s4 with events := s4.events ++ [Ev.emitError e, Ev.obsError e] }
      | none => { s4 with events := s4.events ++ [Ev.obsComplete] }

/-- Mirrors DiscoBusMaster._getResponseNodeIndex, including its side effect
of initializing the next response group.  The sentinel -1 of the source is
none here. -/
def getResponseNodeIndex (s : BusState) : Option Nat × BusState :=
  if s.msgOptions.batchMode && s.msgOptions.responseMsg then
    let bufs := s.messageResponse.nodeBufs
    let i :=
      if bufs.length = 0 then 0
      else if (bufs.getD (bufs.length - 1) []).length = s.dataLen then bufs.length
      else bufs.length - 1
    if i > s.nodeNum then (none, s)
    else if i = bufs.length then
      (some i, { s with messageResponse := RespBuf.nodes (bufs ++ [[]]) })
    else (some i, s)
  else (some 0, s)

/-- One iteration of the batch loop of _pushDataToResponse: route one byte
to the active node buffer; none when the response buffer is full (the source
returns from the whole function). -/
def pushBatchByte (s : BusState) (byte : Nat) : Option BusState :=
  match getResponseNodeIndex s with
  | (none, _) => none
  | (some n, s1) =>
    let bufs := s1.messageResponse.nodeBufs
    let buff := bufs.getD n [] ++ [byte]
    let s2 := { s1 with messageResponse := RespBuf.nodes (bufs.set n buff) }
    let s3 :=
      if buff.length = s2.dataLen then
        { s2 with events := s2.events ++ [Ev.nextResponseBuf buff n] }
      else s2
    some { s3 with responseCount := s3.responseCount + 1 }

/-- The batch branch of _pushDataToResponse: process the chunk byte by byte,
stopping the whole chunk once the buffer is full. -/
def pushBatchLoop : List Nat → BusState → BusState
  | [], s => s
  | b :: rest, s =>
    match pushBatchByte s (b % 256) with
    | none => s
    | some s1 => pushBatchLoop rest s1

/-- The non-batch branch of _pushDataToResponse: truncate the chunk to the
remaining length and append each byte to the flat buffer. -/
def pushFlat (data : List Nat) (s : BusState) : BusState :=
  let lenLeft := s.fullDataLen - s.messageResponse.flatBytes.length
  if lenLeft > 0 then
    ((data.take lenLeft).map (fun v => v % 256)).foldl
      (fun st b =>
        { st with
          messageResponse := RespBuf.flat (st.messageResponse.flatBytes ++ [b]),
          events := st.events ++ [Ev.nextResponseByte b st.msgOptions.destination],
          responseCount := st.responseCount + 1 })
      s
  else s

/-- Mirrors DiscoBusMaster._pushDataToResponse. -/
def pushDataToResponse (data : List Nat) (s : BusState) : BusState :=
  if s.msgDone then s
  else if s.msgOptions.batchMode then pushBatchLoop data s
  else pushFlat data s

/-- Mirrors DiscoBusMaster._handleData: inbound data from the port. -/
def handleData (data : List Nat) (s : BusState) : BusState :=
  if s.msgDone then s
  else
    let s0 := startResponseTimer s
    if s0.addressing then
      let addr := (data.getD (data.length - 1) 0) % 256
      let expected := s0.nodeNum + 1
      if addr = expected then
        let s1 := { s0 with nodeNum := s0.nodeNum + 1, addressCorrections := 0 }
        let s2 := sendBytesList s1 [s1.nodeNum] true
        { s2 with events := s2.events ++ [Ev.nextAddressing s2.nodeNum s2.nodeNum] }
      else
        let s1 := { s0 with addressCorrections := s0.addressCorrections + 1 }
        if s1.addressCorrections > MAX_ADDRESS_CORRECTIONS then
          endMessage (some BusError.maxCorrections) s1
        else
          let s2 := { s1 with events := s1.events ++
            [Ev.nextError (BusError.invalidAddress addr expected),
             Ev.emitError (BusError.invalidAddress addr expected)] }
          let s3 := sendBytesList s2 [0x00] true
          sendBytesList s3 [s3.nodeNum] true
    else if s0.msgOptions.responseMsg then
      let s1 := pushDataToResponse data s0
      if s1.responseCount ≥ s1.fullDataLen then endMessage none s1 else s1
    else s0

/-- The buffer whose missing tail _fillNextResponse fills: the active node
buffer in batch mode (messageResponse[index] with the index lookup side
effect, [] when the index is the full sentinel), the whole flat response
buffer otherwise. -/
def pendingBuffer (s : BusState) : List Nat × BusState :=
  if s.msgOptions.batchMode then
    match getResponseNodeIndex s with
    | (some n, s1) => (s1.messageResponse.nodeBufs.getD n [], s1)
    | (none, s1) => ([], s1)
  else (s.messageResponse.flatBytes, s)

/-- Mirrors DiscoBusMaster._fillNextResponse; the Bool is its return value
(all data sections have been handled). -/
def fillNextResponse (s : BusState) : Bool × BusState :=
  let bs := pendingBuffer s
  let fill := s.msgOptions.responseDefault.drop bs.1.length
  let s2 :=
    if fill.length > 0 then
      sendBytesList (pushDataToResponse fill bs.2) fill true
    else bs.2
  (s2.responseCount ≥ s2.fullDataLen, s2)

/-- Mirrors DiscoBusMaster._handleResponseTimeout; the drain callback before
rearming the timer is modelled as running immediately. -/
def handleResponseTimeout (s : BusState) : BusState :=
  if s.msgDone then s
  else if s.addressing then endMessage none s
  else if s.msgOptions.responseMsg then
    let fs := fillNextResponse s
    if fs.1 then endMessage none fs.2 else startResponseTimer fs.2
  else s

/-- Mirrors DiscoBusMaster.startAddressing.  The drain callback that raises
the daisy line, transmits the starting address and arms the timer is
modelled as running immediately. -/
def startAddressing (startFrom : Nat) (s : BusState) : Except BusError BusState :=
  if s.msgDone = false then Except.error BusError.previousNotFinished
  else if s.hasPort = false then Except.error BusError.noPort
  else
    let reset : Except BusError BusState :=
      if startFrom = 0 then
        match startMessage CMD_RESET 0
            { noOptions with destination := some BROADCAST_ADDRESS } s with
        | Except.error e => Except.error e
        | Except.ok sr => Except.ok (endMessage none sr)
      else Except.ok s
    match reset with
    | Except.error e => Except.error e
    | Except.ok s1 =>
      let s2 : BusState :=
        { s1 with
          nodeNum := startFrom,
          messageResponse := RespBuf.flat [],
          crcAcc := [],
          msgOptions :=
            { destination := BROADCAST_ADDRESS, batchMode := false,
              responseMsg := false, responseDefault := [0] },
          msgCommand := CMD_ADDRESS,
          sentLen := 0,
          dataLen := 0,
          fullDataLen := 0,
          addressing := true,
          addressCorrections := 0,
          daisy := false }
      match startMessage CMD_ADDRESS 2
          { noOptions with batchMode := some true, responseMsg := some true } s2 with
      | Except.error e => Except.error e
      | Except.ok s3 =>
        let s4 := { s3 with daisy := true }
        let s5 := sendBytesList s4 [startFrom] true
        Except.ok (startResponseTimer s5)

/-- A full unicast (non-batch, non-response) session: startMessage, a list
of sendData calls, endMessage. -/
def runUnicast (command length destination : Nat) (chunks : List (List Nat))
    (s : BusState) : Except BusError BusState :=
  match startMessage command length
      { noOptions with destination := some destination } s with
  | Except.error e => Except.error e
  | Except.ok s1 =>
    Except.ok (endMessage none (chunks.foldl (fun st c => sendData c st) s1))

/-- An idle engine with an attached port and a given node count; mirrors a
freshly constructed DiscoBusMaster after connectWith, with nodeNum set. -/
def mkIdle (nodeNum : Nat) : BusState :=
  { nodeNum := nodeNum,
    messageResponse := RespBuf.flat [],
    crcAcc := [],
    msgOptions :=
      { destination := BROADCAST_ADDRESS, batchMode := false,
        responseMsg := false, responseDefault := [0] },
    msgCommand := 0,
    msgDone := true,
    dataLen := 0,
    fullDataLen := 0,
    sentLen := 0,
    responseCount := 0,
    addressCorrections := 0,
    addressing := false,
    hasPort := true,
    daisy := false,
    timerArmed := false,
    wire := [],
    events := [] }

/-- A concrete open unicast session: startMessage 0x09 length 2 destination 5
on an idle engine with five nodes (the standard message of the test suite). -/
def openState : BusState :=
  match startMessage 0x09 2 { noOptions with destination := some 5 } (mkIdle 5) with
  | Except.ok s => s
  | Except.error _ => mkIdle 5

/-- A concrete open non-batch response session (destination 5, length 3). -/
def openRespFlat : BusState :=
  match startMessage 0x09 3
      { noOptions with destination := some 5, responseMsg := some true } (mkIdle 5) with
  | Except.ok s => s
  | Except.error _ => mkIdle 5

/-- A concrete open batch response session with one node and one byte per
node. -/
def c4State : BusState :=
  match startMessage 0x07 1
      { noOptions with batchMode := some true, responseMsg := some true } (mkIdle 1) with
  | Except.ok s => s
  | Except.error _ => mkIdle 1

/-- The engine right after startAddressing 1 (addressing from a non-zero
starting address). -/
def c5State : BusState :=
  match startAddressing 1 (mkIdle 0) with
  | Except.ok s => s
  | Except.error _ => mkIdle 0

/-- The engine right after startAddressing 0. -/
def c5StateZero : BusState :=
  match startAddressing 0 (mkIdle 0) with
  | Except.ok s => s
  | Except.error _ => mkIdle 0

/-- A concrete batch response session (five nodes, two bytes per node) that
has received the chunk 1, 2, 3: node 0 is complete, node 1 holds one byte. -/
def c6State : BusState :=
  match startMessage 0x09 2
      { noOptions with batchMode := some true, responseMsg := some true } (mkIdle 5) with
  | Except.ok s => handleData [1, 2, 3] s
  | Except.error _ => mkIdle 5

/-- Mapping a byte list through the Buffer.from truncation is the identity
when every entry already is a byte. -/
theorem map_mod_id (l : List Nat) (h : ∀ b ∈ l, b < 256) :
    l.map (fun v => v % 256) = l := by
  induction l with
  | nil => rfl
  | cons a t ih =>
    simp only [List.map_cons, List.cons.injEq]
    exact ⟨Nat.mod_eq_of_lt (h a (by simp)), ih (fun b hb => h b (by simp [hb]))⟩

/-- Validation against the repository test suite: the CRC bytes of the
standard message scenario. -/
theorem crc_standard_message :
    convert16bitTo8 (crc16modbus [0, 5, 9, 1, 2, 1, 2] 0xFFFF) = [57, 231] := by decide

/-- Validation against the repository test suite: the CRC bytes of the NULL
postamble frame. -/
theorem crc_null_frame :
    convert16bitTo8 (crc16modbus [0, 0, 0xFF, 0] 0xFFFF) = [212, 65] := by decide

/-- Validation against the repository test suite: the full wire bytes of the
standard message. -/
theorem standard_message_wire :
    (match runUnicast 0x09 2 0x05 [[1, 2]] (mkIdle 5) with
      | Except.ok s => s.wire
      | Except.error _ => []) =
      [255, 255, 0, 5, 9, 1, 2, 1, 2, 57, 231] := by decide

/-- Validation against the repository test suite: startAddressing 0 first
sends the broadcast RESET frame and then the addressing header and the
starting address byte. -/
theorem addressing_reset_wire :
    c5StateZero.wire =
      [255, 255, 0, 0, 0xFA, 1, 0, 161, 5, 255, 255, 3, 0, 0xFB, 0, 2, 0] := by decide

/-- C10: whenever no session is open (msgDone is set), any inbound data chunk
delivered by the transport is discarded with no effect: the data handler
returns immediately and the whole engine state — node count, response buffer,
received counter, correction counter, timer and event log — is unchanged. -/
theorem c10_idle_data_ignored (data : List Nat) (s : BusState)
    (h : s.msgDone = true) :
    handleData data s = s := by
  simp [handleData, h]

/-- Witness for c10_idle_data_ignored at a concrete idle engine. -/
theorem c10_witness :
    (mkIdle 3).msgDone = true ∧ handleData [1, 2] (mkIdle 3) = mkIdle 3 :=
  ⟨rfl, c10_idle_data_ignored [1, 2] (mkIdle 3) rfl⟩

/-- C8: calling startMessage or startAddressing while a session is open
always fails with the session-busy error, regardless of command, options or
starting address.  The error result models the JS throw, which happens before
any field of the engine is assigned, so the open session is left unchanged. -/
theorem c8_session_busy (command length : Nat) (opts : StartOptions)
    (startFrom : Nat) (s : BusState) (h : s.msgDone = false) :
    startMessage command length opts s = Except.error BusError.previousNotFinished ∧
    startAddressing startFrom s = Except.error BusError.previousNotFinished := by
  constructor
  · simp [startMessage, h]
  · simp [startAddressing, h]

/-- Witness for c8_session_busy on a concrete open session. -/
theorem c8_witness :
    openState.msgDone = false ∧
    (startMessage 2 1 noOptions openState = Except.error BusError.previousNotFinished ∧
     startAddressing 0 openState = Except.error BusError.previousNotFinished) :=
  ⟨by decide, c8_session_busy 2 1 noOptions 0 openState (by decide)⟩

/-- C9: on an open non-addressing response session with fewer received bytes
than expected, endMessage only reports the incomplete-response error: the
session stays open (msgDone still false), nothing is written to the wire (in
particular no CRC bytes), and no complete event is emitted. -/
theorem c9_incomplete_keeps_open (err : Option BusError) (s : BusState)
    (hopen : s.msgDone = false) (haddr : s.addressing = false)
    (hresp : s.msgOptions.responseMsg = true)
    (hlt : s.responseCount < s.fullDataLen) :
    endMessage err s =
      { s with events := s.events ++ [Ev.emitError BusError.incompleteResponse] } := by
  simp [endMessage, hopen, haddr, hresp, hlt]

/-- Witness for c9_incomplete_keeps_open at a concrete open response
session. -/
theorem c9_witness :
    (openRespFlat.msgDone = false ∧ openRespFlat.addressing = false ∧
     openRespFlat.msgOptions.responseMsg = true ∧
     openRespFlat.responseCount < openRespFlat.fullDataLen) ∧
    endMessage none openRespFlat =
      { openRespFlat with
        events := openRespFlat.events ++ [Ev.emitError BusError.incompleteResponse] } :=
  ⟨⟨by decide, by decide, by decide, by decide⟩,
   c9_incomplete_keeps_open none openRespFlat (by decide) (by decide) (by decide) (by decide)⟩

/-- C2 counterexample: a single overflowing sendData call on an open session
with totalExpectedLength 2 transmits nothing and leaves the CRC accumulator
alone, but the bytesSent counter (this sentLen in the source) is incremented
before the check and ends at 3 > 2, refuting the claim that bytesSent never
exceeds totalExpectedLength. -/
theorem c2_counterexample :
    (sendData [1, 2, 3] openState).sentLen = 3 ∧
    (sendData [1, 2, 3] openState).fullDataLen = 2 ∧
    ¬ (sendData [1, 2, 3] openState).sentLen ≤ (sendData [1, 2, 3] openState).fullDataLen ∧
    (sendData [1, 2, 3] openState).wire = openState.wire ∧
    (sendData [1, 2, 3] openState).crcAcc = openState.crcAcc ∧
    (sendData [1, 2, 3] openState).events =
      openState.events ++ [Ev.emitError (BusError.dataOverflow 2)] := by
  decide

/-- C2 amended: an overflowing sendData call on an open session transmits
nothing, leaves the CRC accumulator and response state unchanged and signals
the data-overflow error, but it does increment the bytesSent counter by the
length of the rejected data, so bytesSent can exceed totalExpectedLength
afterwards (only the counter: no byte beyond totalExpectedLength is ever
written to the transport). -/
theorem c2_overflow_no_write (data : List Nat) (s : BusState)
    (hopen : s.msgDone = false)
    (hover : s.sentLen + data.length > s.fullDataLen) :
    sendData data s =
      { s with sentLen := s.sentLen + data.length,
               events := s.events ++ [Ev.emitError (BusError.dataOverflow s.fullDataLen)] } := by
  simp [sendData, hopen, hover]

/-- Witness for c2_overflow_no_write at a concrete open session. -/
theorem c2_witness :
    (openState.msgDone = false ∧ openState.sentLen + 3 > openState.fullDataLen) ∧
    sendData [1, 2, 3] openState =
      { openState with
        sentLen := openState.sentLen + 3,
        events := openState.events ++ [Ev.emitError (BusError.dataOverflow openState.fullDataLen)] } :=
  ⟨⟨by decide, by decide⟩, c2_overflow_no_write [1, 2, 3] openState (by decide) (by decide)⟩

/-- C4: the claimed sentinel bound is off by one in the source.  In a batch
response session with one node and one byte per node, the inbound chunk
5, 6 stores the second byte in a fresh buffer at index 1 (equal to nodeNum,
outside the valid range 0..nodeNum-1) instead of dropping it, and the
received counter reaches 2 although totalExpectedLength is 1; moreover, on a
state whose single node buffer is already full, the index function returns
index 1 rather than the documented full sentinel (the source comment says it
returns -1 when all data has been received). -/
theorem c4_sentinel_off_by_one :
    c4State.nodeNum = 1 ∧ c4State.fullDataLen = 1 ∧ c4State.msgDone = false ∧
    (handleData [5, 6] c4State).messageResponse = RespBuf.nodes [[5], [6]] ∧
    (handleData [5, 6] c4State).responseCount = 2 ∧
    (getResponseNodeIndex
      { c4State with messageResponse := RespBuf.nodes [[5]] }).1 = some 1 := by
  decide

/-- C5: addressing from a non-zero starting address can never be closed by
the response timeout.  After startAddressing 1, fullDataLen is 2 (two bytes
per node times starting nodeNum 1) while responseCount stays 0 during
addressing, so the incomplete-response guard inside endMessage fires: the
timeout leaves the session open (msgDone still false), emits the
incomplete-response error, and sends the postamble NULL frame without its
CRC bytes.  Starting from 0 the same timeout closes the session as the spec
describes. -/
theorem c5_timeout_leaves_session_open :
    c5State.addressing = true ∧ c5State.msgDone = false ∧
    c5State.fullDataLen = 2 ∧ c5State.responseCount = 0 ∧
    (handleResponseTimeout c5State).msgDone = false ∧
    (handleResponseTimeout c5State).events =
      c5State.events ++ [Ev.emitError BusError.incompleteResponse] ∧
    (handleResponseTimeout c5State).wire = c5State.wire ++ [255, 255, 0, 0, 255, 0] ∧
    (handleResponseTimeout c5StateZero).msgDone = true ∧
    (handleResponseTimeout c5StateZero).events = [Ev.obsComplete, Ev.obsComplete] := by
  decide

/-- C3: during an open addressing session, an inbound chunk whose last byte a
equals nodeNum + 1 makes the engine increment nodeNum, reset the correction
counter, transmit the new nodeNum on the bus and emit the addressing next
event for it (the timer is restarted); a chunk with any other last byte
increments the correction counter, and then either the engine aborts through
endMessage with the maximum-corrections error (once the counter exceeds 10),
or — for counter values up to 10, so for at most 10 consecutive corrections —
emits the error-kind next event plus the error notification and transmits
the two correction bytes 0, nodeNum. -/
theorem c3_addressing_data (data : List Nat) (s : BusState) (a : Nat)
    (hopen : s.msgDone = false) (haddr : s.addressing = true)
    (hnode : s.nodeNum < 256)
    (ha : (data.getD (data.length - 1) 0) % 256 = a) :
    (a = s.nodeNum + 1 →
      handleData data s =
        { s with timerArmed := true, nodeNum := s.nodeNum + 1, addressCorrections := 0,
                 wire := s.wire ++ [s.nodeNum + 1], crcAcc := s.crcAcc ++ [s.nodeNum + 1],
                 events := s.events ++ [Ev.nextAddressing (s.nodeNum + 1) (s.nodeNum + 1)] }) ∧
    (a ≠ s.nodeNum + 1 → s.addressCorrections + 1 ≤ MAX_ADDRESS_CORRECTIONS →
      handleData data s =
        { s with timerArmed := true, addressCorrections := s.addressCorrections + 1,
                 events := s.events ++
                   [Ev.nextError (BusError.invalidAddress a (s.nodeNum + 1)),
                    Ev.emitError (BusError.invalidAddress a (s.nodeNum + 1))],
                 wire := s.wire ++ [0, s.nodeNum], crcAcc := s.crcAcc ++ [0, s.nodeNum] }) ∧
    (a ≠ s.nodeNum + 1 → s.addressCorrections + 1 > MAX_ADDRESS_CORRECTIONS →
      handleData data s =
        endMessage (some BusError.maxCorrections)
          { s with timerArmed := true, addressCorrections := s.addressCorrections + 1 }) := by
  have hlt : data.getD (data.length - 1) 0 % 256 < 256 := Nat.mod_lt _ (by norm_num)
  subst ha
  refine ⟨fun heq => ?_, fun hne hle => ?_, fun hne hgt => ?_⟩
  · have h1 : s.nodeNum + 1 < 256 := heq ▸ hlt
    simp only [List.getD_eq_getElem?_getD] at heq
    simp [handleData, hopen, startResponseTimer, haddr, heq, sendBytesList,
      Nat.mod_eq_of_lt h1]
  · have hle10 : ¬ s.addressCorrections + 1 > MAX_ADDRESS_CORRECTIONS :=
      Nat.not_lt.mpr hle
    simp only [List.getD_eq_getElem?_getD] at hne
    simp [handleData, hopen, startResponseTimer, haddr, hne, hle10, sendBytesList,
      Nat.mod_eq_of_lt hnode]
  · simp only [List.getD_eq_getElem?_getD] at hne
    simp [handleData, hopen, startResponseTimer, haddr, hne, hgt, sendBytesList]

/-- Witness for c3_addressing_data: on the concrete addressing session
started from 0, the inbound byte 1 is accepted. -/
theorem c3_witness :
    handleData [1] c5StateZero =
      { c5StateZero with
        timerArmed := true,
        nodeNum := c5StateZero.nodeNum + 1,
        addressCorrections := 0,
        wire := c5StateZero.wire ++ [c5StateZero.nodeNum + 1],
        crcAcc := c5StateZero.crcAcc ++ [c5StateZero.nodeNum + 1],
        events := c5StateZero.events ++
          [Ev.nextAddressing (c5StateZero.nodeNum + 1) (c5StateZero.nodeNum + 1)] } :=
  (c3_addressing_data [1] c5StateZero 1 (by decide) (by decide) (by decide)
    (by decide)).1 (by decide)

/-- C6: when the response timeout fires on an open non-addressing response
session, the engine computes the fill bytes responseDefault[currentLength:]
of the pending buffer (the active node buffer in batch mode, the flat buffer
otherwise), and when they are non-empty it records them through
pushDataToResponse — exactly the path inbound data takes, so buffers, events
and the received counter are updated identically — and transmits the same
bytes on the bus; afterwards the session is ended when
bytesReceived has reached totalExpectedLength and otherwise the timer is
rearmed. -/
theorem c6_timeout_fill (s : BusState)
    (hopen : s.msgDone = false) (haddr : s.addressing = false)
    (hresp : s.msgOptions.responseMsg = true) :
    handleResponseTimeout s =
      (let bs := pendingBuffer s
       let fill := s.msgOptions.responseDefault.drop bs.1.length
       let s2 := if fill.length > 0
                 then sendBytesList (pushDataToResponse fill bs.2) fill true
                 else bs.2
       if s2.responseCount ≥ s2.fullDataLen then endMessage none s2
       else startResponseTimer s2) := by
  simp [handleResponseTimeout, fillNextResponse, hopen, haddr, hresp]

/-- Witness for c6_timeout_fill on a concrete batch response session in
which node 1 has received one of its two bytes. -/
theorem c6_witness :
    handleResponseTimeout c6State =
      (let bs := pendingBuffer c6State
       let fill := c6State.msgOptions.responseDefault.drop bs.1.length
       let s2 := if fill.length > 0
                 then sendBytesList (pushDataToResponse fill bs.2) fill true
                 else bs.2
       if s2.responseCount ≥ s2.fullDataLen then endMessage none s2
       else startResponseTimer s2) :=
  c6_timeout_fill c6State (by decide) (by decide) (by decide)

/-- The normalized response default is the truncation of the supplied list
extended with zero bytes. -/
theorem normalizeDefault_eq (rd : List Nat) (len : Nat) :
    normalizeDefault rd len =
      rd.take len ++ List.replicate (len - (rd.take len).length) 0 := by
  unfold normalizeDefault
  split
  · rfl
  · next h =>
    simp only [List.length_take] at h ⊢
    have h0 : len - len ⊓ rd.length = 0 := by omega
    simp [h0]

/-- The normalized response default always has exactly the requested
length. -/
theorem normalizeDefault_length (rd : List Nat) (len : Nat) :
    (normalizeDefault rd len).length = len := by
  unfold normalizeDefault
  split
  · next h =>
    simp only [List.length_append, List.length_replicate]
    omega
  · next h =>
    simp only [List.length_take] at h ⊢
    omega

/-- Writing bytes does not change the message options. -/
theorem sendBytesList_msgOptions (s : BusState) (v : List Nat) (u : Bool) :
    (sendBytesList s v u).msgOptions = s.msgOptions := rfl

/-- Writing bytes does not change the per-node length. -/
theorem sendBytesList_dataLen (s : BusState) (v : List Nat) (u : Bool) :
    (sendBytesList s v u).dataLen = s.dataLen := rfl

/-- Message options do not change on sendData. -/
theorem sendData_msgOptions (d : List Nat) (t : BusState) :
    (sendData d t).msgOptions = t.msgOptions := by
  unfold sendData
  simp [apply_ite BusState.msgOptions, sendBytesList_msgOptions]

/-- The per-node length does not change on sendData. -/
theorem sendData_dataLen (d : List Nat) (t : BusState) :
    (sendData d t).dataLen = t.dataLen := by
  unfold sendData
  simp [apply_ite BusState.dataLen, sendBytesList_dataLen]

/-- Message options do not change on endMessage. -/
theorem endMessage_msgOptions (e : Option BusError) (t : BusState) :
    (endMessage e t).msgOptions = t.msgOptions := by
  unfold endMessage
  cases e <;>
    simp [apply_ite BusState.msgOptions, sendBytesList_msgOptions, sendData_msgOptions]

/-- The per-node length does not change on endMessage. -/
theorem endMessage_dataLen (e : Option BusError) (t : BusState) :
    (endMessage e t).dataLen = t.dataLen := by
  unfold endMessage
  cases e <;>
    simp [apply_ite BusState.dataLen, sendBytesList_dataLen, sendData_dataLen]

/-- The node-index computation only touches the response buffers. -/
theorem getResponseNodeIndex_preserves (t : BusState) :
    (getResponseNodeIndex t).2.msgOptions = t.msgOptions ∧
    (getResponseNodeIndex t).2.dataLen = t.dataLen := by
  constructor <;>
    · unfold getResponseNodeIndex
      dsimp only
      repeat' split
      all_goals rfl

/-- Routing one batch byte only touches buffers, events and the counter. -/
theorem pushBatchByte_preserves (t : BusState) (b : Nat) (t1 : BusState)
    (h : pushBatchByte t b = some t1) :
    t1.msgOptions = t.msgOptions ∧ t1.dataLen = t.dataLen := by
  unfold pushBatchByte at h
  split at h
  · exact absurd h (by simp)
  · next n s1 heq =>
    have hs1 := getResponseNodeIndex_preserves t
    rw [heq] at hs1
    dsimp only at h hs1
    split at h <;>
      · injection h with h
        subst h
        simpa using hs1

/-- The batch loop of the response push preserves options and length. -/
theorem pushBatchLoop_preserves (d : List Nat) (t : BusState) :
    (pushBatchLoop d t).msgOptions = t.msgOptions ∧
    (pushBatchLoop d t).dataLen = t.dataLen := by
  induction d generalizing t with
  | nil => exact ⟨rfl, rfl⟩
  | cons b rest ih =>
    unfold pushBatchLoop
    split
    · exact ⟨rfl, rfl⟩
    · next s1 heq =>
      have h1 := pushBatchByte_preserves t (b % 256) s1 heq
      have h2 := ih s1
      exact ⟨h2.1.trans h1.1, h2.2.trans h1.2⟩

/-- The flat response push preserves options and length. -/
theorem pushFlat_preserves (d : List Nat) (t : BusState) :
    (pushFlat d t).msgOptions = t.msgOptions ∧ (pushFlat d t).dataLen = t.dataLen := by
  unfold pushFlat
  dsimp only
  split
  · next h =>
    clear h
    generalize (d.take (t.fullDataLen - t.messageResponse.flatBytes.length)).map
      (fun v => v % 256) = l
    induction l generalizing t with
    | nil => exact ⟨rfl, rfl⟩
    | cons b rest ih =>
      rw [List.foldl_cons]
      exact ⟨(ih _).1.trans rfl, (ih _).2.trans rfl⟩
  · exact ⟨rfl, rfl⟩

/-- The response push preserves options and length. -/
theorem pushDataToResponse_msgOptions (d : List Nat) (t : BusState) :
    (pushDataToResponse d t).msgOptions = t.msgOptions := by
  unfold pushDataToResponse
  split
  · rfl
  · split
    · exact (pushBatchLoop_preserves d t).1
    · exact (pushFlat_preserves d t).1

/-- The response push preserves the per-node length. -/
theorem pushDataToResponse_dataLen (d : List Nat) (t : BusState) :
    (pushDataToResponse d t).dataLen = t.dataLen := by
  unfold pushDataToResponse
  split
  · rfl
  · split
    · exact (pushBatchLoop_preserves d t).2
    · exact (pushFlat_preserves d t).2

/-- The inbound-data handler preserves options and length. -/
theorem handleData_preserves (d : List Nat) (t : BusState) :
    (handleData d t).msgOptions = t.msgOptions ∧ (handleData d t).dataLen = t.dataLen := by
  constructor <;>
    · unfold handleData
      simp [apply_ite BusState.msgOptions, apply_ite BusState.dataLen,
        startResponseTimer, sendBytesList_msgOptions, sendBytesList_dataLen,
        sendBytesList, endMessage_msgOptions, endMessage_dataLen,
        pushDataToResponse_msgOptions, pushDataToResponse_dataLen]

/-- The pending-buffer lookup preserves options and length. -/
theorem pendingBuffer_preserves (t : BusState) :
    (pendingBuffer t).2.msgOptions = t.msgOptions ∧
    (pendingBuffer t).2.dataLen = t.dataLen := by
  unfold pendingBuffer
  split
  · split <;>
      · next heq =>
        have h := getResponseNodeIndex_preserves t
        rw [heq] at h
        simpa using h
  · exact ⟨rfl, rfl⟩

/-- The timeout handler preserves options and length. -/
theorem handleResponseTimeout_preserves (t : BusState) :
    (handleResponseTimeout t).msgOptions = t.msgOptions ∧
    (handleResponseTimeout t).dataLen = t.dataLen := by
  have hfill : (fillNextResponse t).2.msgOptions = t.msgOptions ∧
      (fillNextResponse t).2.dataLen = t.dataLen := by
    unfold fillNextResponse
    dsimp only
    split
    · exact ⟨by simp [sendBytesList_msgOptions, pushDataToResponse_msgOptions,
          (pendingBuffer_preserves t).1],
        by simp [sendBytesList_dataLen, pushDataToResponse_dataLen,
          (pendingBuffer_preserves t).2]⟩
    · exact pendingBuffer_preserves t
  constructor <;>
    · unfold handleResponseTimeout
      simp [apply_ite BusState.msgOptions, apply_ite BusState.dataLen,
        startResponseTimer, endMessage_msgOptions, endMessage_dataLen,
        hfill.1, hfill.2]

/-- C7: when startMessage opens a response session, the stored
responseDefault is the supplied default (the merged [0] when absent, [] when
not an array) truncated to perNodeLength and extended with zero bytes to
exactly perNodeLength, so its length equals perNodeLength (the dataLen of
the session); and no session operation — sendData, inbound data, endMessage
or the response timeout — ever changes the stored options or perNodeLength,
so the normalization holds throughout the session. -/
theorem c7_response_default_normalized (command length : Nat) (opts : StartOptions)
    (s s1 : BusState) (hresp : opts.responseMsg = some true)
    (hok : startMessage command length opts s = Except.ok s1) :
    s1.msgOptions.responseDefault =
      (suppliedDefault opts.responseDefault).take length ++
        List.replicate
          (length - ((suppliedDefault opts.responseDefault).take length).length) 0 ∧
    s1.msgOptions.responseDefault.length = length ∧
    s1.dataLen = length ∧
    (∀ d t, (sendData d t).msgOptions = t.msgOptions ∧ (sendData d t).dataLen = t.dataLen) ∧
    (∀ d t, (handleData d t).msgOptions = t.msgOptions ∧ (handleData d t).dataLen = t.dataLen) ∧
    (∀ e t, (endMessage e t).msgOptions = t.msgOptions ∧ (endMessage e t).dataLen = t.dataLen) ∧
    (∀ t, (handleResponseTimeout t).msgOptions = t.msgOptions ∧
          (handleResponseTimeout t).dataLen = t.dataLen) := by
  have key : s1.msgOptions.responseDefault =
      normalizeDefault (suppliedDefault opts.responseDefault) length ∧
      s1.dataLen = length := by
    unfold startMessage at hok
    dsimp only at hok
    repeat' split at hok
    all_goals
      first
        | exact Except.noConfusion hok
        | (injection hok with hok
           subst hok
           constructor <;> simp_all [startResponseTimer, sendBytesList])
  refine ⟨?_, ?_, key.2, fun d t => ⟨sendData_msgOptions d t, sendData_dataLen d t⟩,
    handleData_preserves, fun e t => ⟨endMessage_msgOptions e t, endMessage_dataLen e t⟩,
    handleResponseTimeout_preserves⟩
  · rw [key.1, normalizeDefault_eq]
  · rw [key.1, normalizeDefault_length]

/-- Witness for c7_response_default_normalized: a concrete response session
with a three byte default and perNodeLength five. -/
theorem c7_witness :
    openRespFlat.msgOptions.responseDefault =
      (suppliedDefault RespDefaultArg.absent).take 3 ++
        List.replicate (3 - ((suppliedDefault RespDefaultArg.absent).take 3).length) 0 ∧
    openRespFlat.msgOptions.responseDefault.length = 3 ∧
    openRespFlat.dataLen = 3 ∧
    (∀ d t, (sendData d t).msgOptions = t.msgOptions ∧ (sendData d t).dataLen = t.dataLen) ∧
    (∀ d t, (handleData d t).msgOptions = t.msgOptions ∧ (handleData d t).dataLen = t.dataLen) ∧
    (∀ e t, (endMessage e t).msgOptions = t.msgOptions ∧ (endMessage e t).dataLen = t.dataLen) ∧
    (∀ t, (handleResponseTimeout t).msgOptions = t.msgOptions ∧
          (handleResponseTimeout t).dataLen = t.dataLen) :=
  c7_response_default_normalized 0x09 3
    { noOptions with destination := some 5, responseMsg := some true }
    (mkIdle 5) openRespFlat rfl rfl

/-- The two emitted CRC bytes are already bytes, so the Buffer.from
truncation leaves them unchanged. -/
theorem convert16bitTo8_map_mod (v : Nat) :
    (convert16bitTo8 v).map (fun x => x % 256) = convert16bitTo8 v := by
  simp [convert16bitTo8, Nat.mod_mod_of_dvd]

/-- An in-bounds sendData call on an open session appends the (truncated)
data to the wire and the CRC accumulator and advances the counter. -/
theorem sendData_send (c : List Nat) (t : BusState)
    (hopen : t.msgDone = false) (hfit : t.sentLen + c.length ≤ t.fullDataLen) :
    sendData c t =
      { t with sentLen := t.sentLen + c.length,
               wire := t.wire ++ c.map (fun v => v % 256),
               crcAcc := t.crcAcc ++ c.map (fun v => v % 256) } := by
  simp [sendData, hopen, sendBytesList, Nat.not_lt.mpr hfit]

/-- A sequence of sendData calls that fits in the expected length appends
the concatenated (truncated) data to the wire and the CRC accumulator. -/
theorem sendData_foldl (chunks : List (List Nat)) (t : BusState)
    (hopen : t.msgDone = false)
    (hfit : t.sentLen + chunks.flatten.length ≤ t.fullDataLen) :
    chunks.foldl (fun st c => sendData c st) t =
      { t with sentLen := t.sentLen + chunks.flatten.length,
               wire := t.wire ++ chunks.flatten.map (fun v => v % 256),
               crcAcc := t.crcAcc ++ chunks.flatten.map (fun v => v % 256) } := by
  induction chunks generalizing t with
  | nil => simp
  | cons c rest ih =>
    have hc : t.sentLen + c.length ≤ t.fullDataLen := by
      simp only [List.flatten_cons, List.length_append] at hfit
      omega
    have hfit2 : t.sentLen + c.length + rest.flatten.length ≤ t.fullDataLen := by
      simp only [List.flatten_cons, List.length_append] at hfit
      omega
    rw [List.foldl_cons, sendData_send c t hopen hc,
      ih { t with sentLen := t.sentLen + c.length,
                  wire := t.wire ++ c.map (fun v => v % 256),
                  crcAcc := t.crcAcc ++ c.map (fun v => v % 256) }
        (by exact hopen) (by exact hfit2)]
    simp [List.flatten_cons, List.map_append, List.append_assoc, Nat.add_assoc]

/-- Ending an open non-addressing, non-response session pads the remaining
data with zero bytes and appends the CRC of the accumulated header and data
bytes, high byte first, leaving the session closed with the complete event
emitted. -/
theorem endMessage_unicast (t : BusState)
    (hopen : t.msgDone = false) (haddr : t.addressing = false)
    (hresp : t.msgOptions.responseMsg = false)
    (hfit : t.sentLen ≤ t.fullDataLen) :
    endMessage none t =
      { t with
        sentLen := t.fullDataLen,
        crcAcc := t.crcAcc ++ List.replicate (t.fullDataLen - t.sentLen) 0,
        wire := t.wire ++ List.replicate (t.fullDataLen - t.sentLen) 0 ++
          convert16bitTo8 (crc16modbus
            (t.crcAcc ++ List.replicate (t.fullDataLen - t.sentLen) 0) 0xFFFF),
        daisy := false, msgDone := true,
        events := t.events ++ [Ev.obsComplete] } := by
  rcases Nat.lt_or_ge t.sentLen t.fullDataLen with hlt | hge
  · have hsend := sendData_send (List.replicate (t.fullDataLen - t.sentLen) 0) t hopen
      (by simp only [List.length_replicate]; omega)
    simp only [endMessage, hopen, haddr, hresp, hlt, hsend, sendBytesList,
      convert16bitTo8_map_mod, List.map_replicate, Nat.zero_mod, Bool.false_eq_true,
      if_false, Bool.not_false, Bool.true_and, if_true, Bool.false_and, if_pos hlt]
    simp [Nat.add_sub_cancel' (Nat.le_of_lt hlt)]
  · have heq : t.sentLen = t.fullDataLen := Nat.le_antisymm hfit hge
    have h0 : t.fullDataLen - t.sentLen = 0 := by omega
    simp [endMessage, hopen, haddr, hresp, h0, heq, sendBytesList,
      convert16bitTo8_map_mod]

/-- C1: a complete unicast (non-batch, non-response) session with command c,
per-node length L and destination d writes exactly the sync bytes 255 255,
the five byte header [flags = 0, d, c, 1, L], the data supplied through
sendData padded with zero bytes up to L, and finally the CRC-16/MODBUS
(seed 0xFFFF) of header plus padded data, high byte first; the sync bytes
and the CRC bytes themselves do not enter the CRC computation, which ranges
over exactly the header and data bytes. -/
theorem c1_unicast_wire (command length destination : Nat) (chunks : List (List Nat))
    (s : BusState)
    (hidle : s.msgDone = true) (hport : s.hasPort = true) (haddr : s.addressing = false)
    (hcmd : command < 256) (hdest : destination < 256) (hlen : length < 256)
    (hbytes : ∀ b ∈ chunks.flatten, b < 256)
    (hfit : chunks.flatten.length ≤ length) :
    ∃ s1, runUnicast command length destination chunks s = Except.ok s1 ∧
      s1.msgDone = true ∧
      s1.wire = s.wire ++ [0xFF, 0xFF] ++
        ([0, destination, command, 1, length] ++
         chunks.flatten ++ List.replicate (length - chunks.flatten.length) 0) ++
        convert16bitTo8 (crc16modbus
          ([0, destination, command, 1, length] ++
           chunks.flatten ++ List.replicate (length - chunks.flatten.length) 0) 0xFFFF) := by
  have hstart : startMessage command length
      { noOptions with destination := some destination } s =
      Except.ok
        { s with
          msgDone := false,
          crcAcc := [0, destination, command, 1, length],
          msgOptions :=
            { destination := destination, batchMode := false,
              responseMsg := false, responseDefault := [0] },
          msgCommand := command,
          dataLen := length,
          fullDataLen := length,
          responseCount := 0,
          sentLen := 0,
          messageResponse := RespBuf.flat [],
          wire := s.wire ++ [255, 255] ++ [0, destination, command, 1, length] } := by
    simp [startMessage, noOptions, hidle, hport, sendBytesList, suppliedDefault,
      BROADCAST_ADDRESS, FLAG_BATCH, FLAG_RESPONSE, CMD_ADDRESS,
      Nat.mod_eq_of_lt hcmd, Nat.mod_eq_of_lt hdest, Nat.mod_eq_of_lt hlen]
  unfold runUnicast
  rw [hstart]
  dsimp only
  rw [sendData_foldl chunks _ (by exact rfl) (by simpa using hfit)]
  rw [map_mod_id chunks.flatten hbytes]
  rw [endMessage_unicast _ (by exact rfl) (by exact haddr) (by exact rfl)
    (by simpa using hfit)]
  refine ⟨_, rfl, rfl, ?_⟩
  simp [List.append_assoc]

/-- Witness for c1_unicast_wire at the standard message of the test suite:
command 9, length 2, destination 5, data [1, 2]. -/
theorem c1_witness :
    ∃ s1, runUnicast 0x09 2 0x05 [[1, 2]] (mkIdle 5) = Except.ok s1 ∧
      s1.msgDone = true ∧
      s1.wire = (mkIdle 5).wire ++ [0xFF, 0xFF] ++
        ([0, 0x05, 0x09, 1, 2] ++
         ([[1, 2]] : List (List Nat)).flatten ++
         List.replicate (2 - ([[1, 2]] : List (List Nat)).flatten.length) 0) ++
        convert16bitTo8 (crc16modbus
          ([0, 0x05, 0x09, 1, 2] ++
           ([[1, 2]] : List (List Nat)).flatten ++
           List.replicate (2 - ([[1, 2]] : List (List Nat)).flatten.length) 0) 0xFFFF) :=
  c1_unicast_wire 0x09 2 0x05 [[1, 2]] (mkIdle 5) rfl rfl rfl (by decide) (by decide)
    (by decide) (by decide) (by decide)

end DiscoBus
